import Mathlib

/-! The class gfx::NativeTheme (trunk/library/ui_gfx/native_theme.h).

The header declares two unscoped enumerations (`Part`, `State`), fourteen
payload structs collected in the union `ExtraParams`, two pure virtual
operations, a colour setter, a singleton accessor and three static colour
fields.  This development embeds those declarations and checks the
interface facts that the specification states about them.
-/

namespace gfx

namespace NativeTheme

/-! ## Enumerations -/

/-- The part to be painted / sized: `enum Part`, enumerators in declaration
order (header lines 36-73).  No enumerator carries an initializer. -/
inductive Part where
  | kCheckbox
  | kInnerSpinButton
  | kMenuList
  | kMenuCheck
  | kMenuCheckBackground
  | kMenuPopupArrow
  | kMenuPopupBackground
  | kMenuPopupGutter
  | kMenuPopupSeparator
  | kMenuItemBackground
  | kProgressBar
  | kPushButton
  | kRadio
  | kScrollbarDownArrow
  | kScrollbarLeftArrow
  | kScrollbarRightArrow
  | kScrollbarUpArrow
  | kScrollbarHorizontalThumb
  | kScrollbarVerticalThumb
  | kScrollbarHorizontalTrack
  | kScrollbarVerticalTrack
  | kScrollbarHorizontalGripper
  | kScrollbarVerticalGripper
  | kSliderTrack
  | kSliderThumb
  | kTabPanelBackground
  | kTextField
  | kTrackbarThumb
  | kTrackbarTrack
  | kWindowResizeGripper
  | kMaxPart
  deriving DecidableEq, Repr

/-- The state of the part: `enum State`, enumerators in declaration order
(header lines 76-83).  No enumerator carries an initializer. -/
inductive State where
  | kDisabled
  | kHovered
  | kNormal
  | kPressed
  | kMaxState
  deriving DecidableEq, Repr

/-- Every enumerator of `Part`, sentinel included, in declaration order. -/
def Part.enumerators : List Part :=
  [.kCheckbox, .kInnerSpinButton, .kMenuList, .kMenuCheck, .kMenuCheckBackground,
   .kMenuPopupArrow, .kMenuPopupBackground, .kMenuPopupGutter, .kMenuPopupSeparator,
   .kMenuItemBackground, .kProgressBar, .kPushButton, .kRadio,
   .kScrollbarDownArrow, .kScrollbarLeftArrow, .kScrollbarRightArrow, .kScrollbarUpArrow,
   .kScrollbarHorizontalThumb, .kScrollbarVerticalThumb,
   .kScrollbarHorizontalTrack, .kScrollbarVerticalTrack,
   .kScrollbarHorizontalGripper, .kScrollbarVerticalGripper,
   .kSliderTrack, .kSliderThumb, .kTabPanelBackground, .kTextField,
   .kTrackbarThumb, .kTrackbarTrack, .kWindowResizeGripper, .kMaxPart]

/-- Every enumerator of `State`, sentinel included, in declaration order. -/
def State.enumerators : List State :=
  [.kDisabled, .kHovered, .kNormal, .kPressed, .kMaxState]

/-- Numeric value of a `Part` enumerator.  With no initializers the first
enumerator is 0 and each later one is its predecessor plus one, so the value
is the position in the declaration. -/
def Part.numeric (p : Part) : Nat := Part.enumerators.indexOf p

/-- Numeric value of a `State` enumerator (position in the declaration). -/
def State.numeric (s : State) : Nat := State.enumerators.indexOf s

/-- Difference `part - kScrollbarDownArrow` in C++ `int` arithmetic: the
index a platform implementation uses into its per-direction arrow tables. -/
def Part.arrowOffset (p : Part) : Int :=
  (p.numeric : Int) - (Part.kScrollbarDownArrow.numeric : Int)

/-! ## Declared types

The payload structs, the union and the member declarations of the class are
kept as data, so that statements about which fields a record has, and of
which type, are ordinary decidable propositions. -/

/-- Type expressions that occur in the header's declarations. -/
inductive CType where
  | bool
  | int
  | double
  | unsignedInt
  | void
  | named (name : String)
  | pointer (pointee : CType)
  | constOf (inner : CType)
  | reference (referee : CType)
  deriving DecidableEq, Repr

/-- One declarator `type name;` (a struct field, a union member, a function
parameter or a static data member). -/
structure FieldDecl where
  type : CType
  name : String
  deriving DecidableEq, Repr

/-- A `struct` or `union` definition: its tag and its members in declaration
order. -/
structure RecordDecl where
  name : String
  fields : List FieldDecl
  deriving DecidableEq, Repr

/-- Header lines 88-96. -/
def ButtonExtraParams : RecordDecl :=
  ⟨"ButtonExtraParams",
   [⟨.bool, "checked"⟩,
    ⟨.bool, "indeterminate"⟩,
    ⟨.bool, "is_default"⟩,
    ⟨.bool, "has_border"⟩,
    ⟨.int, "classic_state"⟩,
    ⟨.named "SkColor", "background_color"⟩]⟩

/-- Header lines 98-103. -/
def InnerSpinButtonExtraParams : RecordDecl :=
  ⟨"InnerSpinButtonExtraParams",
   [⟨.bool, "spin_up"⟩,
    ⟨.bool, "read_only"⟩,
    ⟨.int, "classic_state"⟩]⟩

/-- Header lines 105-111. -/
def MenuArrowExtraParams : RecordDecl :=
  ⟨"MenuArrowExtraParams",
   [⟨.bool, "pointing_right"⟩,
    ⟨.bool, "is_selected"⟩]⟩

/-- Header lines 113-119. -/
def MenuCheckExtraParams : RecordDecl :=
  ⟨"MenuCheckExtraParams",
   [⟨.bool, "is_radio"⟩,
    ⟨.bool, "is_selected"⟩]⟩

/-- Header lines 121-124. -/
def MenuItemExtraParams : RecordDecl :=
  ⟨"MenuItemExtraParams",
   [⟨.bool, "is_selected"⟩]⟩

/-- Header lines 126-134. -/
def MenuListExtraParams : RecordDecl :=
  ⟨"MenuListExtraParams",
   [⟨.bool, "has_border"⟩,
    ⟨.bool, "has_border_radius"⟩,
    ⟨.int, "arrow_x"⟩,
    ⟨.int, "arrow_y"⟩,
    ⟨.named "SkColor", "background_color"⟩,
    ⟨.int, "classic_state"⟩]⟩

/-- Header lines 136-139. -/
def MenuSeparatorExtraParams : RecordDecl :=
  ⟨"MenuSeparatorExtraParams",
   [⟨.bool, "has_gutter"⟩]⟩

/-- Header lines 141-149. -/
def ProgressBarExtraParams : RecordDecl :=
  ⟨"ProgressBarExtraParams",
   [⟨.double, "animated_seconds"⟩,
    ⟨.bool, "determinate"⟩,
    ⟨.int, "value_rect_x"⟩,
    ⟨.int, "value_rect_y"⟩,
    ⟨.int, "value_rect_width"⟩,
    ⟨.int, "value_rect_height"⟩]⟩

/-- Header lines 151-154. -/
def ScrollbarArrowExtraParams : RecordDecl :=
  ⟨"ScrollbarArrowExtraParams",
   [⟨.bool, "is_hovering"⟩]⟩

/-- Header lines 156-164. -/
def ScrollbarTrackExtraParams : RecordDecl :=
  ⟨"ScrollbarTrackExtraParams",
   [⟨.bool, "is_upper"⟩,
    ⟨.int, "track_x"⟩,
    ⟨.int, "track_y"⟩,
    ⟨.int, "track_width"⟩,
    ⟨.int, "track_height"⟩,
    ⟨.int, "classic_state"⟩]⟩

/-- Header lines 166-169. -/
def ScrollbarThumbExtraParams : RecordDecl :=
  ⟨"ScrollbarThumbExtraParams",
   [⟨.bool, "is_hovering"⟩]⟩

/-- Header lines 171-175. -/
def SliderExtraParams : RecordDecl :=
  ⟨"SliderExtraParams",
   [⟨.bool, "vertical"⟩,
    ⟨.bool, "in_drag"⟩]⟩

/-- Header lines 177-187. -/
def TextFieldExtraParams : RecordDecl :=
  ⟨"TextFieldExtraParams",
   [⟨.bool, "is_text_area"⟩,
    ⟨.bool, "is_listbox"⟩,
    ⟨.named "SkColor", "background_color"⟩,
    ⟨.bool, "is_read_only"⟩,
    ⟨.bool, "is_focused"⟩,
    ⟨.bool, "fill_content_area"⟩,
    ⟨.bool, "draw_edges"⟩,
    ⟨.int, "classic_state"⟩]⟩

/-- Header lines 189-192. -/
def TrackbarExtraParams : RecordDecl :=
  ⟨"TrackbarExtraParams",
   [⟨.int, "classic_state"⟩]⟩

/-- The `union ExtraParams` (header lines 194-210): one member per payload
struct. -/
def ExtraParams : RecordDecl :=
  ⟨"ExtraParams",
   [⟨.named "ButtonExtraParams", "button"⟩,
    ⟨.named "InnerSpinButtonExtraParams", "inner_spin"⟩,
    ⟨.named "MenuArrowExtraParams", "menu_arrow"⟩,
    ⟨.named "MenuCheckExtraParams", "menu_check"⟩,
    ⟨.named "MenuItemExtraParams", "menu_item"⟩,
    ⟨.named "MenuListExtraParams", "menu_list"⟩,
    ⟨.named "MenuSeparatorExtraParams", "menu_separator"⟩,
    ⟨.named "ProgressBarExtraParams", "progress_bar"⟩,
    ⟨.named "ScrollbarArrowExtraParams", "scrollbar_arrow"⟩,
    ⟨.named "ScrollbarTrackExtraParams", "scrollbar_track"⟩,
    ⟨.named "ScrollbarThumbExtraParams", "scrollbar_thumb"⟩,
    ⟨.named "SliderExtraParams", "slider"⟩,
    ⟨.named "TextFieldExtraParams", "text_field"⟩,
    ⟨.named "TrackbarExtraParams", "trackbar"⟩]⟩

/-- Every struct and union the class defines, in declaration order. -/
def recordDecls : List RecordDecl :=
  [ButtonExtraParams, InnerSpinButtonExtraParams, MenuArrowExtraParams,
   MenuCheckExtraParams, MenuItemExtraParams, MenuListExtraParams,
   MenuSeparatorExtraParams, ProgressBarExtraParams, ScrollbarArrowExtraParams,
   ScrollbarTrackExtraParams, ScrollbarThumbExtraParams, SliderExtraParams,
   TextFieldExtraParams, TrackbarExtraParams, ExtraParams]

/-- Name lookup among the records the class defines. -/
def lookupRecord (tag : String) : Option RecordDecl :=
  recordDecls.find? (fun d => d.name == tag)

/-- The type of the member of that name, when the record declares one. -/
def RecordDecl.member? (d : RecordDecl) (name : String) : Option CType :=
  (d.fields.find? (fun f => f.name == name)).map (fun f => f.type)

/-- A type with its `const` qualifiers and references removed. -/
def CType.unqualified : CType → CType
  | .constOf t => t.unqualified
  | .reference t => t.unqualified
  | t => t

/-- The members a value of the given type has: those of the record it names,
none for a scalar, a pointer or a type the header only forward-declares. -/
def CType.members (t : CType) : List FieldDecl :=
  match t.unqualified with
  | .named tag => ((lookupRecord tag).map (fun d => d.fields)).getD []
  | _ => []

/-- A member function declaration of the class. -/
structure MethodDecl where
  name : String
  result : CType
  params : List FieldDecl
  isVirtual : Bool
  isPure : Bool
  isConst : Bool
  isStatic : Bool
  deriving DecidableEq, Repr

/-- Header lines 213-215. -/
def GetPartSize : MethodDecl :=
  ⟨"GetPartSize", .named "Size",
   [⟨.named "Part", "part"⟩,
    ⟨.named "State", "state"⟩,
    ⟨.reference (.constOf (.named "ExtraParams")), "extra"⟩],
   true, true, true, false⟩

/-- Header lines 218-222. -/
def Paint : MethodDecl :=
  ⟨"Paint", .void,
   [⟨.pointer (.named "SkCanvas"), "canvas"⟩,
    ⟨.named "Part", "part"⟩,
    ⟨.named "State", "state"⟩,
    ⟨.reference (.constOf (.named "gfx::Rect")), "rect"⟩,
    ⟨.reference (.constOf (.named "ExtraParams")), "extra"⟩],
   true, true, true, false⟩

/-- Header lines 225-227 (declaration only; `unsigned` is `unsigned int`). -/
def SetScrollbarColorsDecl : MethodDecl :=
  ⟨"SetScrollbarColors", .void,
   [⟨.unsignedInt, "inactive_color"⟩,
    ⟨.unsignedInt, "active_color"⟩,
    ⟨.unsignedInt, "track_color"⟩],
   false, false, true, false⟩

/-- Header line 232. -/
def instanceDecl : MethodDecl :=
  ⟨"instance", .pointer (.constOf (.named "NativeTheme")), [],
   false, false, false, true⟩

/-- The static data members of the class (header lines 238-240): the only
data the class itself holds. -/
def staticDataMembers : List FieldDecl :=
  [⟨.unsignedInt, "thumb_inactive_color_"⟩,
   ⟨.unsignedInt, "thumb_active_color_"⟩,
   ⟨.unsignedInt, "track_color_"⟩]

/-- The scalar inputs a call of the method receives, as access paths with
their types: a parameter of record type is opened into its members, and a
member of record type into its fields (`extra.button.checked`); any other
parameter is a path of its own. -/
def MethodDecl.inputPaths (m : MethodDecl) : List (String × CType) :=
  m.params.flatMap fun p =>
    match p.type.members with
    | [] => [(p.name, p.type)]
    | ms => ms.flatMap fun v =>
        match v.type.members with
        | [] => [(p.name ++ "." ++ v.name, v.type)]
        | fs => fs.map fun f => (p.name ++ "." ++ v.name ++ "." ++ f.name, f.type)

/-! ## The specification's vocabulary

What the specification says about the records: the kinds of field it allows,
its names for the payload variants, and its two worked example payloads. -/

/-- The field kinds the specification allows in a payload record. -/
inductive SpecKind where
  | boolean
  | integer
  | packedColour
  | floatingPoint
  deriving DecidableEq, Repr

/-- Modelled from the spec: `SkColor` is a typedef of the drawing library,
which the header only includes; the specification calls it a packed colour
value, an opaque 32-bit colour representation.  Every other type is
classified by what the header itself says: `bool`, `int` and `double` are the
boolean, integer and floating-point kinds, and nothing else is a payload
kind. -/
def CType.specKind : CType → Option SpecKind
  | .bool => some .boolean
  | .int => some .integer
  | .double => some .floatingPoint
  | .named "SkColor" => some .packedColour
  | _ => none

/-- A value as the specification's examples write one. -/
inductive Literal where
  | bool (b : Bool)
  | integer (i : Int)
  | decimal (mantissa : Int) (decimals : Nat)
  deriving DecidableEq, Repr

/-- Whether a written value is a value of the given kind: `true`/`false` for a
boolean, an integer in the 32-bit `int` range for an integer, an integer in
`0 .. 2^32 - 1` for a packed colour, any number for a floating-point field. -/
def Literal.fits : SpecKind → Literal → Bool
  | .boolean, .bool _ => true
  | .integer, .integer i => decide (-(2 : Int) ^ 31 ≤ i ∧ i < (2 : Int) ^ 31)
  | .packedColour, .integer i => decide (0 ≤ i ∧ i < (2 : Int) ^ 32)
  | .floatingPoint, .integer _ => true
  | .floatingPoint, .decimal _ _ => true
  | _, _ => false

/-- A written record `{name: value, ...}` is a complete, well-formed value of
the declared record: no name is written twice, every declared field is given
a value of its kind (none missing), and every written name is a declared
field (none left over). -/
def wellFormedPayload (d : RecordDecl) (v : List (String × Literal)) : Bool :=
  decide (v.map Prod.fst).Nodup
  && d.fields.all (fun f =>
      match f.type.specKind, v.lookup f.name with
      | some k, some x => x.fits k
      | _, _ => false)
  && v.all (fun e => d.fields.any (fun f => f.name == e.1))

/-- The specification's names for the payload variants, in its order. -/
def specVariantNames : List String :=
  ["button", "inner-spin", "menu-arrow", "menu-check", "menu-item", "menu-list",
   "menu-separator", "progress-bar", "scrollbar-arrow", "scrollbar-track",
   "scrollbar-thumb", "slider", "text-field", "trackbar"]

/-- The identifier for a specification name: hyphens become underscores. -/
def specIdentifier (n : String) : String :=
  String.mk (n.data.map fun c => if c = '-' then '_' else c)

/-- The specification's list of paintable parts, in its order. -/
def specPaintableParts : List Part :=
  [.kCheckbox, .kInnerSpinButton, .kMenuList, .kMenuCheck, .kMenuCheckBackground,
   .kMenuPopupArrow, .kMenuPopupBackground, .kMenuPopupGutter, .kMenuPopupSeparator,
   .kMenuItemBackground, .kProgressBar, .kPushButton, .kRadio,
   .kScrollbarDownArrow, .kScrollbarLeftArrow, .kScrollbarRightArrow, .kScrollbarUpArrow,
   .kScrollbarHorizontalThumb, .kScrollbarVerticalThumb,
   .kScrollbarHorizontalTrack, .kScrollbarVerticalTrack,
   .kScrollbarHorizontalGripper, .kScrollbarVerticalGripper,
   .kSliderTrack, .kSliderThumb, .kTabPanelBackground, .kTextField,
   .kTrackbarThumb, .kTrackbarTrack, .kWindowResizeGripper]

/-- The specification's list of real states, in its order. -/
def specRealStates : List State :=
  [.kDisabled, .kHovered, .kNormal, .kPressed]

/-- The button record as the specification's push-button example uses it. -/
def specButtonFields : List (String × SpecKind) :=
  [("checked", .boolean), ("indeterminate", .boolean), ("is_default", .boolean),
   ("has_border", .boolean), ("classic_state", .integer),
   ("background_color", .packedColour)]

/-- The payload of the specification's push-button example. -/
def specButtonExample : List (String × Literal) :=
  [("checked", .bool false), ("indeterminate", .bool false),
   ("is_default", .bool false), ("has_border", .bool true),
   ("classic_state", .integer 0), ("background_color", .integer 0xFFFFFFFF)]

/-- The progress-bar record as the specification's example uses it. -/
def specProgressBarFields : List (String × SpecKind) :=
  [("animated_seconds", .floatingPoint), ("determinate", .boolean),
   ("value_rect_x", .integer), ("value_rect_y", .integer),
   ("value_rect_width", .integer), ("value_rect_height", .integer)]

/-- The payload of the specification's progress-bar example
(`animated_seconds: 1.5` is 15 with one decimal). -/
def specProgressBarExample : List (String × Literal) :=
  [("animated_seconds", .decimal 15 1), ("determinate", .bool true),
   ("value_rect_x", .integer 10), ("value_rect_y", .integer 0),
   ("value_rect_width", .integer 50), ("value_rect_height", .integer 16)]

/-- The fields of a record with the kind the specification gives each type. -/
def RecordDecl.kinds (d : RecordDecl) : List (String × Option SpecKind) :=
  d.fields.map fun f => (f.name, f.type.specKind)

/-- Every (variant, field) of the union whose type is `double`. -/
def doubleFields : List (String × String) :=
  ExtraParams.fields.flatMap fun v =>
    (v.type.members.filter (fun f => f.type == .double)).map fun f => (v.name, f.name)

/-! ## Styling state -/

/-- Width in bits of `unsigned int` on the platforms the library targets. -/
def unsignedBits : Nat := 32

/-- The value an `unsigned int` object holds for a mathematical integer. -/
def toUnsigned (n : Nat) : Nat := n % 2 ^ unsignedBits

/-- The three static colour fields of the class (header lines 238-240). -/
structure StylingState where
  thumb_inactive_color_ : Nat
  thumb_active_color_ : Nat
  track_color_ : Nat
  deriving DecidableEq, Repr

/-- The state of the process: the styling colours, and everything else the
process holds (drawing surfaces, the theme instance, ...). -/
structure ProcessState (ρ : Type) where
  styling : StylingState
  rest : ρ

/-- Modelled from the spec: the body of `NativeTheme::SetScrollbarColors` is
not in the header, which only declares it (lines 225-227).  The specification
has it set the process-wide styling state: the inactive thumb colour, the
active thumb colour and the track colour, from its three `unsigned`
arguments in that order. -/
def SetScrollbarColors {ρ : Type} (inactive_color active_color track_color : Nat)
    (w : ProcessState ρ) : ProcessState ρ :=
  ⟨⟨toUnsigned inactive_color, toUnsigned active_color, toUnsigned track_color⟩, w.rest⟩

/-! ## Theorems -/

/-- The well-formedness check is not trivially true: the push-button example
with `has_border` left out is rejected against the button record. -/
theorem wellFormedPayload_rejects_missing_field :
    wellFormedPayload ButtonExtraParams
      (specButtonExample.filter fun e => e.1 != "has_border") = false := by
  decide

/-- The well-formedness check rejects a name the record does not declare, a
name written twice, and a value of the wrong kind. -/
theorem wellFormedPayload_rejects_malformed :
    wellFormedPayload ButtonExtraParams
        (specButtonExample ++ [("spin_up", .bool true)]) = false ∧
    wellFormedPayload ButtonExtraParams
        (specButtonExample ++ [("checked", .bool false)]) = false ∧
    wellFormedPayload ProgressBarExtraParams
        (("determinate", .integer 2) ::
          specProgressBarExample.filter fun e => e.1 != "determinate") = false ∧
    wellFormedPayload ProgressBarExtraParams specButtonExample = false := by
  decide

/-- The enumerator list of `Part` is complete and in declaration order: the
numeric value of an enumerator is its position among the constructors. -/
theorem Part.numeric_eq_ctor_position (p : Part) : p.numeric = p.toCtorIdx := by
  cases p <;> rfl

/-- The enumerator list of `State` is complete and in declaration order. -/
theorem State.numeric_eq_state_position (s : State) : s.numeric = s.toCtorIdx := by
  cases s <;> rfl

/-- C1: in the `Part` enumeration the four scrollbar-arrow values are strictly
ordered down < left < right < up. -/
theorem scrollbar_arrow_order :
    Part.kScrollbarDownArrow.numeric < Part.kScrollbarLeftArrow.numeric ∧
    Part.kScrollbarLeftArrow.numeric < Part.kScrollbarRightArrow.numeric ∧
    Part.kScrollbarRightArrow.numeric < Part.kScrollbarUpArrow.numeric := by
  decide

/-- C2: the sentinel `kMaxPart` equals the count of real parts.  The
specification's 30 paintable parts are exactly the enumerators other than the
sentinel, their numeric values are pairwise distinct and are exactly 0..29,
`kMaxPart` is 30, every real part is below `kMaxPart`, and so every real part
indexes a table of `kMaxPart` entries in bounds. -/
theorem kMaxPart_is_part_count :
    specPaintableParts.length = 30 ∧
    Part.enumerators = specPaintableParts ++ [Part.kMaxPart] ∧
    specPaintableParts.Nodup ∧
    (∀ p : Part, p ∈ specPaintableParts ↔ p ≠ Part.kMaxPart) ∧
    specPaintableParts.map Part.numeric = List.range 30 ∧
    (∀ p q : Part, p.numeric = q.numeric → p = q) ∧
    Part.kMaxPart.numeric = 30 ∧
    (∀ p : Part, p ≠ Part.kMaxPart → p.numeric < Part.kMaxPart.numeric) ∧
    (∀ (α : Type) (table : List α), table.length = Part.kMaxPart.numeric →
      ∀ p : Part, p ≠ Part.kMaxPart → p.numeric < table.length) := by
  refine ⟨by decide, by decide, by decide, ?_, by decide, ?_, by decide, ?_, ?_⟩
  · intro p; cases p <;> decide
  · intro p q; cases p <;> cases q <;> decide
  · intro p; cases p <;> decide
  · intro α table hlen p hp
    rw [hlen]
    revert hp
    cases p <;> decide

/-- C3: `State` has exactly the four real members disabled, hovered, normal,
pressed, with the pairwise distinct values 0, 1, 2, 3 in that order, and the
sentinel `kMaxState` equals their count, so every real state is below it. -/
theorem kMaxState_is_state_count :
    (∀ s : State, s ∈ specRealStates ↔ s ≠ State.kMaxState) ∧
    State.enumerators = specRealStates ++ [State.kMaxState] ∧
    specRealStates.length = 4 ∧
    State.kDisabled.numeric = 0 ∧
    State.kHovered.numeric = 1 ∧
    State.kNormal.numeric = 2 ∧
    State.kPressed.numeric = 3 ∧
    (∀ s t : State, s.numeric = t.numeric → s = t) ∧
    State.kMaxState.numeric = 4 ∧
    State.kMaxState.numeric = specRealStates.length ∧
    (∀ s : State, s ≠ State.kMaxState → s.numeric < State.kMaxState.numeric) := by
  refine ⟨?_, by decide, by decide, by decide, by decide, by decide, by decide, ?_,
    by decide, by decide, ?_⟩
  · intro s; cases s <;> decide
  · intro s t; cases s <;> cases t <;> decide
  · intro s; cases s <;> decide

/-- C4: `ExtraParams` has exactly the 14 payload variants the specification
names, each a struct of the class; every field of every variant is a boolean,
an integer, a packed colour or a floating-point value (no nested record,
pointer or other type); and the only floating-point field of any variant is
the progress bar's `animated_seconds`. -/
theorem extraParams_variants_are_flat :
    ExtraParams.fields.length = 14 ∧
    ExtraParams.fields.map (fun v => v.name) = specVariantNames.map specIdentifier ∧
    (ExtraParams.fields.map fun v => v.name).Nodup ∧
    (∀ v ∈ ExtraParams.fields, ∃ d ∈ recordDecls,
      v.type = .named d.name ∧ v.type.members = d.fields ∧ d.fields ≠ [] ∧
      ∀ f ∈ d.fields, f.type.specKind ≠ none ∧ f.type.members = []) ∧
    doubleFields = [("progress_bar", "animated_seconds")] := by
  refine ⟨by decide, by decide, by decide, ?_, by decide⟩
  intro v hv
  simp only [ExtraParams, List.mem_cons, List.mem_singleton, List.not_mem_nil,
    or_false] at hv
  rcases hv with h | h | h | h | h | h | h | h | h | h | h | h | h | h <;> subst h
  · exact ⟨ButtonExtraParams, by decide, by decide, by decide, by decide, by decide⟩
  · exact ⟨InnerSpinButtonExtraParams, by decide, by decide, by decide, by decide, by decide⟩
  · exact ⟨MenuArrowExtraParams, by decide, by decide, by decide, by decide, by decide⟩
  · exact ⟨MenuCheckExtraParams, by decide, by decide, by decide, by decide, by decide⟩
  · exact ⟨MenuItemExtraParams, by decide, by decide, by decide, by decide, by decide⟩
  · exact ⟨MenuListExtraParams, by decide, by decide, by decide, by decide, by decide⟩
  · exact ⟨MenuSeparatorExtraParams, by decide, by decide, by decide, by decide, by decide⟩
  · exact ⟨ProgressBarExtraParams, by decide, by decide, by decide, by decide, by decide⟩
  · exact ⟨ScrollbarArrowExtraParams, by decide, by decide, by decide, by decide, by decide⟩
  · exact ⟨ScrollbarTrackExtraParams, by decide, by decide, by decide, by decide, by decide⟩
  · exact ⟨ScrollbarThumbExtraParams, by decide, by decide, by decide, by decide, by decide⟩
  · exact ⟨SliderExtraParams, by decide, by decide, by decide, by decide, by decide⟩
  · exact ⟨TextFieldExtraParams, by decide, by decide, by decide, by decide, by decide⟩
  · exact ⟨TrackbarExtraParams, by decide, by decide, by decide, by decide, by decide⟩

/-- C5: `SetScrollbarColors(inactive, active, track)` leaves the inactive-thumb
colour equal to its first argument, the active-thumb colour to its second and
the track colour to its third, for every triple of `unsigned` values; it
changes nothing else; and a second call overwrites all three fields, so the
last call wins. -/
theorem SetScrollbarColors_sets_styling {ρ : Type} (inactive active track : Nat)
    (hi : inactive < 2 ^ unsignedBits) (ha : active < 2 ^ unsignedBits)
    (ht : track < 2 ^ unsignedBits) (w : ProcessState ρ) :
    (SetScrollbarColors inactive active track w).styling.thumb_inactive_color_ = inactive ∧
    (SetScrollbarColors inactive active track w).styling.thumb_active_color_ = active ∧
    (SetScrollbarColors inactive active track w).styling.track_color_ = track ∧
    (SetScrollbarColors inactive active track w).rest = w.rest ∧
    ∀ i₀ a₀ t₀ : Nat,
      SetScrollbarColors inactive active track (SetScrollbarColors i₀ a₀ t₀ w)
        = ⟨⟨inactive, active, track⟩, w.rest⟩ := by
  simp [SetScrollbarColors, toUnsigned, Nat.mod_eq_of_lt hi, Nat.mod_eq_of_lt ha,
    Nat.mod_eq_of_lt ht]

/-- Witness for C5: red, green and blue set over an earlier styling state. -/
theorem SetScrollbarColors_sets_styling_witness :
    (SetScrollbarColors 0xFF0000 0x00FF00 0x0000FF
        (SetScrollbarColors 1 2 3 (⟨⟨7, 8, 9⟩, "surface"⟩ : ProcessState String)))
      = ⟨⟨0xFF0000, 0x00FF00, 0x0000FF⟩, "surface"⟩ :=
  (SetScrollbarColors_sets_styling 0xFF0000 0x00FF00 0x0000FF
    (by decide) (by decide) (by decide)
    (⟨⟨7, 8, 9⟩, "surface"⟩ : ProcessState String)).2.2.2.2 1 2 3

/-- C8: the button record has exactly the six fields of the specification's
push-button example, with the kinds it gives them (four booleans, an integer,
a packed colour), and the example value is a complete, well-formed button
payload: no field missing and none left over. -/
theorem button_payload_example_well_formed :
    ButtonExtraParams.fields.length = 6 ∧
    ButtonExtraParams.kinds = specButtonFields.map (fun e => (e.1, some e.2)) ∧
    specButtonExample.map Prod.fst = ButtonExtraParams.fields.map (fun f => f.name) ∧
    wellFormedPayload ButtonExtraParams specButtonExample = true ∧
    ExtraParams.member? "button" = some (.named ButtonExtraParams.name) := by
  decide

/-- C9: the progress-bar record has exactly the six fields of the
specification's example, with the kinds it gives them (a floating-point
`animated_seconds`, a boolean `determinate`, four integers), and the example
value is a complete, well-formed progress-bar payload.  `animated_seconds`
reaches `Paint` and `GetPartSize` as part of the `extra` argument of each
call, and is not among the data the theme class holds, none of which is a
`double`. -/
theorem progress_bar_payload_example_well_formed :
    ProgressBarExtraParams.fields.length = 6 ∧
    ProgressBarExtraParams.kinds = specProgressBarFields.map (fun e => (e.1, some e.2)) ∧
    specProgressBarExample.map Prod.fst
      = ProgressBarExtraParams.fields.map (fun f => f.name) ∧
    wellFormedPayload ProgressBarExtraParams specProgressBarExample = true ∧
    ExtraParams.member? "progress_bar" = some (.named ProgressBarExtraParams.name) ∧
    ("extra.progress_bar.animated_seconds", CType.double) ∈ Paint.inputPaths ∧
    ("extra.progress_bar.animated_seconds", CType.double) ∈ GetPartSize.inputPaths ∧
    (∀ f ∈ staticDataMembers, f.name ≠ "animated_seconds" ∧ f.type ≠ .double) := by
  decide

/-- C10: the four scrollbar-arrow parts are one contiguous block of `Part`:
the offset from `kScrollbarDownArrow` is 0, 1, 2, 3 for down, left, right, up,
and for every part, sentinel included, the offset lies in 0..3 exactly when
the part is one of the four arrows; so the offset is an index into a 4-entry
table for every arrow and for no other part. -/
theorem scrollbar_arrows_contiguous_block :
    Part.kScrollbarDownArrow.arrowOffset = 0 ∧
    Part.kScrollbarLeftArrow.arrowOffset = 1 ∧
    Part.kScrollbarRightArrow.arrowOffset = 2 ∧
    Part.kScrollbarUpArrow.arrowOffset = 3 ∧
    (∀ p : Part, (0 ≤ p.arrowOffset ∧ p.arrowOffset ≤ 3) ↔
      (p = .kScrollbarDownArrow ∨ p = .kScrollbarLeftArrow ∨
        p = .kScrollbarRightArrow ∨ p = .kScrollbarUpArrow)) ∧
    (∀ (α : Type) (table : List α), table.length = 4 → ∀ p : Part,
      (∃ i : Fin table.length, p.arrowOffset = ((i : Nat) : Int)) ↔
        (p = .kScrollbarDownArrow ∨ p = .kScrollbarLeftArrow ∨
          p = .kScrollbarRightArrow ∨ p = .kScrollbarUpArrow)) := by
  have key : ∀ p : Part, (0 ≤ p.arrowOffset ∧ p.arrowOffset ≤ 3) ↔
      (p = .kScrollbarDownArrow ∨ p = .kScrollbarLeftArrow ∨
        p = .kScrollbarRightArrow ∨ p = .kScrollbarUpArrow) := by
    intro p; cases p <;> decide
  refine ⟨by decide, by decide, by decide, by decide, key, ?_⟩
  intro α table hlen p
  rw [← key p]
  constructor
  · rintro ⟨i, hi⟩
    have := i.isLt
    omega
  · rintro ⟨h0, h3⟩
    refine ⟨⟨p.arrowOffset.toNat, by omega⟩, ?_⟩
    simp only
    omega

end NativeTheme

end gfx
